import Mathlib

/-!
Verification of `pySPACE/resources/data_types/prediction_vector.py`
(class `PredictionVector`, a numpy `ndarray` subclass).

Shallow embedding notes:
* Python floats are modelled as `PyFloat`: an exact rational for finite
  values plus the three non-finite values `inf`, `ninf` (negative
  infinity) and `nan`.  None of the claims depends on binary rounding;
  the code only routes, compares and tolerance-checks values.
* The source runs under Python 2 / classic numpy: `None > 0` evaluates
  to `False`, a `str` has no `__iter__` attribute, and the truth value
  of an empty array is `False` while a multi-element array raises.
* Fallible Python code is modelled with `Except PyErr`.
* `base.BaseData` (file `pySPACE/resources/data_types/base.py`) is not
  part of the sources; the storage wrapper is modelled from the spec.
-/

/-- Rational addition computed on numerator/denominator pairs (the
`@[irreducible]` core operations block kernel evaluation, so the
embedded numeric code uses these explicit forms; `qadd_eq` links back
to the Mathlib `+`). -/
def qadd (a b : ℚ) : ℚ := mkRat (a.num * (b.den : ℤ) + b.num * (a.den : ℤ)) (a.den * b.den)

/-- Rational subtraction computed on numerator/denominator pairs. -/
def qsub (a b : ℚ) : ℚ := mkRat (a.num * (b.den : ℤ) - b.num * (a.den : ℤ)) (a.den * b.den)

/-- Rational multiplication computed on numerator/denominator pairs. -/
def qmul (a b : ℚ) : ℚ := mkRat (a.num * b.num) (a.den * b.den)

/-- Rational absolute value computed on the numerator. -/
def qabs (a : ℚ) : ℚ := mkRat a.num.natAbs a.den

/-- Rational floor computed by integer division. -/
def qfloor (a : ℚ) : ℤ := a.num / (a.den : ℤ)

/-- A Python floating point value: a finite rational, or one of the
non-finite values `inf`, `-inf`, `nan`. -/
inductive PyFloat where
  | fin : ℚ → PyFloat
  | inf : PyFloat
  | ninf : PyFloat
  | nan : PyFloat
deriving DecidableEq, Repr

/-- Predicate `numpy.isfinite` on a single value. -/
def PyFloat.isFinite : PyFloat → Bool
  | .fin _ => true
  | _ => false

/-- Python comparison `x > 0` on a float: `inf > 0` is `True`,
`-inf > 0` and `nan > 0` are `False`. -/
def PyFloat.gtZero : PyFloat → Bool
  | .fin q => decide (0 < q)
  | .inf => true
  | .ninf => false
  | .nan => false

/-- Returns `True` unless the value is `nan`. -/
def PyFloat.notNaN : PyFloat → Bool
  | .nan => false
  | _ => true

/-- The Python exceptions the embedded code can raise. -/
inductive PyErr where
  | typeError
  | valueError
  | indexError
deriving DecidableEq, Repr

/-- The runtime value passed as the `prediction` argument of
`PredictionVector.__new__`.  The branches mirror the `type(prediction)`
dispatch in the source:
* `none` — Python `None`;
* `flt f` — a `float` or `numpy.float64` (the code treats both alike:
  a `float` is rewrapped as `numpy.float64` with the same value);
* `intv n` — an `int` or `numpy.int64` (multiplied by `1.0`);
* `list l` — a Python `list` of floats;
* `arr v` — a 1-d `numpy.ndarray` of floats;
* `other f` — a scalar of any other numeric type whose generic
  `float(...)` conversion yields `f` (e.g. `numpy.float32`,
  `decimal.Decimal`). -/
inductive PredIn where
  | none : PredIn
  | flt : PyFloat → PredIn
  | intv : ℤ → PredIn
  | list : List PyFloat → PredIn
  | arr : List PyFloat → PredIn
  | other : PyFloat → PredIn
deriving DecidableEq, Repr

/-- Numeric storage: a 1-d or 2-d numpy array of floats.  The code
normally builds 2-d storage, but the sequence-sanitization branch
builds the flat list `[0]*len(prediction)`, hence 1-d storage. -/
inductive NDArr where
  | one : List PyFloat → NDArr
  | two : List (List PyFloat) → NDArr
deriving DecidableEq, Repr

/-- Computes `numpy.isfinite(input_array).all()`. -/
def NDArr.allFinite : NDArr → Bool
  | .one l => l.all PyFloat.isFinite
  | .two m => m.all fun r => r.all PyFloat.isFinite

/-- The `label` attribute value: a string or a list of strings
(`Option` supplies the Python `None`). -/
inductive PyLabel where
  | str : String → PyLabel
  | lst : List String → PyLabel
deriving DecidableEq, Repr

/-- The numeric content of the `prediction` attribute after
construction: a scalar or an ordered sequence. -/
inductive PredVal where
  | s : PyFloat → PredVal
  | l : List PyFloat → PredVal
deriving DecidableEq, Repr

/-- The prediction value contains no `nan` entry. -/
def PredVal.noNaN : PredVal → Bool
  | .s f => f.notNaN
  | .l xs => xs.all PyFloat.notNaN

/-- No `nan` in an optional prediction attribute (absent counts as
failing, since `numpy.allclose(None, None)` raises). -/
def optNoNaN : Option PredVal → Bool
  | Option.none => false
  | Option.some p => p.noNaN

/-- A `PredictionVector` instance: the numeric storage of the ndarray
base plus the attributes set by `__new__` / `__array_finalize__`.
`predictor` is an opaque object reference, modelled by an identifier;
`tag` is only present when it was set. -/
structure PredictionVector where
  storage : NDArr
  label : Option PyLabel
  predictor : Option Nat
  prediction : Option PredVal
  tag : Option Nat
deriving DecidableEq, Repr

/-- Modelled from the spec: `base.BaseData.__new__`
(`pySPACE/resources/data_types/base.py`, not among the sources) wraps
the given (possibly nested) sequence as numeric storage of the same
shape and content — "a generic ordered numeric array type supporting
construction-from-nested-sequence". -/
def BaseDataNew (a : NDArr) : NDArr := a

/-- Step 1 of `PredictionVector.__new__` (source lines 86–106): when
`input_array` is `None`, derive it from `prediction`, possibly
reassigning the local `prediction` variable (coercions) and possibly
emitting the type-mismatch warning (the returned `Bool`).
Raises `TypeError` when both `input_array` and `prediction` are absent. -/
def deriveInput (input_array : Option (List (List PyFloat))) (prediction : PredIn) :
    Except PyErr (NDArr × PredIn × Bool) :=
  match input_array with
  | Option.some a => .ok (.two a, prediction, false)
  | Option.none =>
    match prediction with
    | .list l => .ok (.two [l], .list l, false)
    | .arr v => .ok (.two [v], .arr v, false)
    | .none => .error .typeError
    | .flt f => .ok (.two [[f]], .flt f, false)
    | .intv n => .ok (.two [[.fin (n : ℚ)]], .flt (.fin (n : ℚ)), false)
    | .other f => .ok (.two [[f]], .flt f, true)

/-- The scalar sanitization of `__new__` (source lines 110–115):
`prediction = ±10**9; input_array = [[float(prediction)]]`. -/
def sentinel (pos : Bool) : NDArr × PredIn :=
  if pos then (.two [[.fin (10 ^ 9 : ℚ)]], .intv (10 ^ 9))
  else (.two [[.fin (-(10 ^ 9) : ℚ)]], .intv (-(10 ^ 9)))

/-- Step 2 of `PredictionVector.__new__` (source lines 107–115): if any
entry of `input_array` is non-finite, replace it — for a `list`
prediction by the flat list `[0]*len(prediction)` (the original
`prediction` variable is left untouched), otherwise by the `±10**9`
sentinel chosen by `prediction > 0` (Python 2: `None > 0` is `False`;
the truth value of an ndarray is that of its single element, `False` when
empty, and raises `ValueError` for several elements). -/
def sanitize (a : NDArr) (pred : PredIn) : Except PyErr (NDArr × PredIn) :=
  if a.allFinite then .ok (a, pred)
  else
    match pred with
    | .list l => .ok (.one (List.replicate l.length (.fin 0)), .list l)
    | .none => .ok (sentinel false)
    | .flt f => .ok (sentinel f.gtZero)
    | .other f => .ok (sentinel f.gtZero)
    | .intv n => .ok (sentinel (decide (0 < n)))
    | .arr v =>
      match v with
      | [x] => .ok (sentinel x.gtZero)
      | [] => .ok (sentinel false)
      | _ => .error .valueError

/-- Step 5 of `PredictionVector.__new__` (source lines 125–132): the
`prediction` attribute.  When the (possibly reassigned) `prediction`
variable is still `None`, derive it from `list(input_array[0])`: a
length-1 row collapses to its element, anything else stays a list.
`input_array[0]` of an empty 2-d list raises `IndexError`; on 1-d
storage `list(scalar)` would raise `TypeError` (unreachable). -/
def attachPrediction (a : NDArr) (pred : PredIn) : Except PyErr PredVal :=
  match pred with
  | .none =>
    match a with
    | .two (r :: _) =>
      match r with
      | [x] => .ok (.s x)
      | _ => .ok (.l r)
    | .two [] => .error .indexError
    | .one [] => .error .indexError
    | .one _ => .error .typeError
  | .flt f => .ok (.s f)
  | .intv n => .ok (.s (.fin (n : ℚ)))
  | .other f => .ok (.s f)
  | .list l => .ok (.l l)
  | .arr v => .ok (.l v)

/-- Method `PredictionVector.__new__` (source lines 81–136).  Returns the
constructed instance together with the flag "a type-mismatch warning
was emitted", or the raised exception. -/
def PredictionVector.new (input_array : Option (List (List PyFloat)))
    (label : Option PyLabel) (prediction : PredIn)
    (predictor : Option Nat) (tag : Option Nat) :
    Except PyErr (PredictionVector × Bool) :=
  match deriveInput input_array prediction with
  | .error e => .error e
  | .ok (a, pred, warned) =>
    match sanitize a pred with
    | .error e => .error e
    | .ok (a2, pred2) =>
      match attachPrediction a2 pred2 with
      | .error e => .error e
      | .ok pv => .ok (⟨BaseDataNew a2, label, predictor, Option.some pv, tag⟩, warned)

/-- Default numpy absolute tolerance: `atol = 1e-08`. -/
def atolQ : ℚ := mkRat 1 100000000

/-- Default numpy relative tolerance: `rtol = 1e-05`. -/
def rtolQ : ℚ := mkRat 1 100000

/-- One element of `numpy.isclose(a, b)` (default `equal_nan=False`):
for two finite values `|a - b| <= atol + rtol*|b|` (note: the relative
tolerance scales with the second operand only), otherwise plain
equality, so `inf` matches `inf` and `nan` matches nothing. -/
def iscloseElem (a b : PyFloat) : Bool :=
  match a, b with
  | .fin x, .fin y => decide (qabs (qsub x y) ≤ qadd atolQ (qmul rtolQ (qabs y)))
  | .inf, .inf => true
  | .ninf, .ninf => true
  | _, _ => false

/-- Models `numpy.allclose` on two 1-d value lists, with numpy broadcasting: a
length-1 operand broadcasts against the other, equal lengths pair up
elementwise, anything else raises `ValueError`. -/
def allcloseL (xs ys : List PyFloat) : Except PyErr Bool :=
  match xs, ys with
  | [x], ys => .ok (ys.all fun y => iscloseElem x y)
  | xs, [y] => .ok (xs.all fun x => iscloseElem x y)
  | xs, ys =>
    if xs.length = ys.length then
      .ok ((xs.zip ys).all fun p => iscloseElem p.1 p.2)
    else .error .valueError

/-- A scalar participates in `allclose` like a one-element array
(shape `()` broadcasts like shape `(1,)` here). -/
def PredVal.toListP : PredVal → List PyFloat
  | .s f => [f]
  | .l xs => xs

/-- Computes `numpy.allclose(self.prediction, other.prediction)`. -/
def allcloseP (a b : PredVal) : Except PyErr Bool :=
  allcloseL a.toListP b.toListP

/-- Models `numpy.allclose` lifted to the optional attribute: comparing with
an absent (`None`) prediction raises `TypeError` in numpy. -/
def allcloseOpt : Option PredVal → Option PredVal → Except PyErr Bool
  | Option.some a, Option.some b => allcloseP a b
  | _, _ => .error .typeError

/-- The value compared against in `__eq__`: another `PredictionVector`
or a value of any other concrete type (bare ndarray, number, ...). -/
inductive PyObj where
  | pv : PredictionVector → PyObj
  | foreign : Nat → PyObj

/-- Method `PredictionVector.__eq__` (source lines 179–185): `False` for a
different concrete type; otherwise `self.label == other.label and
numpy.allclose(self.prediction, other.prediction)` — the `and`
short-circuits, so `allclose` (which may raise) only runs when the
labels are equal. -/
def PredictionVector.eq (v : PredictionVector) : PyObj → Except PyErr Bool
  | .foreign _ => .ok false
  | .pv w =>
    if v.label = w.label then allcloseOpt v.prediction w.prediction
    else .ok false

/-- The source object seen by `__array_finalize__`: absent, a bare
`numpy.ndarray` (exact type), or a `PredictionVector`. -/
inductive FinSrc where
  | absent : FinSrc
  | bare : NDArr → FinSrc
  | pv : PredictionVector → FinSrc

/-- Method `PredictionVector.__array_finalize__` (source lines 138–150),
describing the new instance produced when `storage` is derived (view,
slice, arithmetic) from `src`: attributes are copied by reference from
a `PredictionVector` source via `getattr`, and default to `None` for a
bare ndarray or absent source.  The `BaseData` part of the hook is
modelled from the spec: it touches none of the three attributes. -/
def PredictionVector.arrayFinalize (storage : NDArr) : FinSrc → PredictionVector
  | .pv v => ⟨storage, v.label, v.predictor, v.prediction, Option.none⟩
  | .bare _ => ⟨storage, Option.none, Option.none, Option.none, Option.none⟩
  | .absent => ⟨storage, Option.none, Option.none, Option.none, Option.none⟩

/-- Column slice `a[..., i:j]` of the numeric storage. -/
def NDArr.sliceCols : NDArr → Nat → Nat → NDArr
  | .one l, i, j => .one ((l.drop i).take (j - i))
  | .two m, i, j => .two (m.map fun r => (r.drop i).take (j - i))

/-- A basic slice of a `PredictionVector` is a view of the same class;
numpy then fires `__array_finalize__` with the source instance. -/
def pvSliceCols (v : PredictionVector) (i j : Nat) : PredictionVector :=
  PredictionVector.arrayFinalize (v.storage.sliceCols i j) (.pv v)

/-- Method `PredictionVector.__reduce__` (source lines 162–171): the persisted
state is the base ndarray state — modelled from the spec as carrying
exactly the numeric storage, since the `BaseData` pickling code lives
outside the sources — with the triple `(label, predictor, prediction)`
appended. -/
def PredictionVector.reduce (v : PredictionVector) :
    NDArr × (Option PyLabel × Option Nat × Option PredVal) :=
  (v.storage, (v.label, v.predictor, v.prediction))

/-- Method `PredictionVector.__setstate__` (source lines 173–177): restore the
base ndarray state (modelled from the spec: the numeric storage), then
assign the appended attribute triple explicitly.  `tag` is not part of
the persisted state. -/
def PredictionVector.setstate
    (st : NDArr × (Option PyLabel × Option Nat × Option PredVal)) :
    PredictionVector :=
  ⟨st.1, st.2.1, st.2.2.1, st.2.2.2, Option.none⟩

/-- Serialize then deserialize through the native persistence hooks. -/
def pvRoundTrip (v : PredictionVector) : PredictionVector :=
  PredictionVector.setstate v.reduce

/-- Round half to even, the rounding of C `printf` on exact values. -/
def rhe (q : ℚ) : ℤ :=
  if qsub q ((qfloor q : ℤ) : ℚ) < mkRat 1 2 then qfloor q
  else if mkRat 1 2 < qsub q ((qfloor q : ℤ) : ℚ) then qfloor q + 1
  else if qfloor q % 2 = 0 then qfloor q else qfloor q + 1

/-- Left-pad the decimal digits of `n` with zeros to width 4. -/
def pad4 (n : Nat) : String :=
  String.join (List.replicate (4 - (toString n).length) "0") ++ toString n

/-- Python `"%.4f" % x`. -/
def fmt4 (x : PyFloat) : String :=
  match x with
  | .inf => "inf"
  | .ninf => "-inf"
  | .nan => "nan"
  | .fin q =>
    (if q < 0 then "-" else "") ++
      toString ((rhe (qmul (qabs q) 10000)).toNat / 10000) ++ "." ++
      pad4 ((rhe (qmul (qabs q) 10000)).toNat % 10000)

/-- One `"%s : %.4f \t" % (label, prediction)` fragment of `__str__`
(note the space between the formatted number and the tab). -/
def fmtPair (lab : String) (p : PyFloat) : String :=
  lab ++ " : " ++ fmt4 p ++ " \t"

/-- Method `PredictionVector.__str__` (source lines 153–160).  Python 2: a
`str` has no `__iter__`, so only a list label takes the zip branch
(`zip` truncates to the shorter sequence and needs an iterable
`prediction`); in the scalar branch `"%.4f"` needs a numeric
`prediction`. -/
def PredictionVector.str (v : PredictionVector) : Except PyErr String :=
  match v.label with
  | Option.some (.lst ls) =>
    match v.prediction with
    | Option.some (.l ps) =>
      .ok (String.join ((ls.zip ps).map fun p => fmtPair p.1 p.2))
    | _ => .error .typeError
  | Option.some (.str s) =>
    match v.prediction with
    | Option.some (.s p) => .ok (fmtPair s p)
    | _ => .error .typeError
  | Option.none =>
    match v.prediction with
    | Option.some (.s p) => .ok (fmtPair "None" p)
    | _ => .error .typeError

/-! Bridge lemmas relating the computed rational operations to
the Mathlib field operations on `ℚ`. -/

theorem qadd_eq (a b : ℚ) : qadd a b = a + b := by
  have ha : (a.den : ℤ) ≠ 0 := by exact_mod_cast a.den_nz
  have hb : (b.den : ℤ) ≠ 0 := by exact_mod_cast b.den_nz
  conv_rhs => rw [← Rat.num_divInt_den a, ← Rat.num_divInt_den b,
    Rat.divInt_add_divInt _ _ ha hb]
  rw [qadd, Rat.mkRat_eq_divInt]
  push_cast
  ring_nf

theorem qsub_eq (a b : ℚ) : qsub a b = a - b := by
  have ha : (a.den : ℤ) ≠ 0 := by exact_mod_cast a.den_nz
  have hb : (b.den : ℤ) ≠ 0 := by exact_mod_cast b.den_nz
  conv_rhs => rw [← Rat.num_divInt_den a, ← Rat.num_divInt_den b,
    Rat.divInt_sub_divInt _ _ ha hb]
  rw [qsub, Rat.mkRat_eq_divInt]
  push_cast
  ring_nf

theorem qmul_eq (a b : ℚ) : qmul a b = a * b := by
  conv_rhs => rw [← Rat.num_divInt_den a, ← Rat.num_divInt_den b,
    Rat.divInt_mul_divInt' a.num (a.den : ℤ) b.num (b.den : ℤ)]
  rw [qmul, Rat.mkRat_eq_divInt]
  push_cast
  ring_nf

theorem qabs_eq (a : ℚ) : qabs a = |a| := by
  rcases abs_cases a with ⟨h1, h2⟩ | ⟨h1, h2⟩
  · rw [h1, qabs, Int.natAbs_of_nonneg (Rat.num_nonneg.mpr h2), Rat.mkRat_self]
  · rw [h1, qabs]
    have hn : ¬ (0 ≤ a.num) := by
      rw [Rat.num_nonneg]
      exact not_le.mpr h2
    have h3 : (a.num.natAbs : ℤ) = -a.num := by omega
    rw [Rat.mkRat_eq_divInt, h3, ← Rat.neg_def]

theorem qfloor_eq (a : ℚ) : qfloor a = ⌊a⌋ := by
  rw [qfloor, Rat.floor_def]


/-! Helper lemmas. -/

theorem allFinite_map_fin (P : List ℚ) :
    (P.map PyFloat.fin).all PyFloat.isFinite = true := by
  induction P with
  | nil => rfl
  | cons q P ih => simp_all [PyFloat.isFinite]

theorem allFinite_replicate_zero (n : Nat) :
    (List.replicate n (PyFloat.fin 0)).all PyFloat.isFinite = true := by
  induction n with
  | zero => rfl
  | succ n ih => simp_all [List.replicate, PyFloat.isFinite]

theorem atolQ_eq : atolQ = 1 / 100000000 := by
  rw [atolQ, Rat.mkRat_eq_divInt, Rat.divInt_eq_div]
  norm_num

theorem rtolQ_eq : rtolQ = 1 / 100000 := by
  rw [rtolQ, Rat.mkRat_eq_divInt, Rat.divInt_eq_div]
  norm_num

theorem iscloseElem_self (x : PyFloat) (h : x.notNaN = true) :
    iscloseElem x x = true := by
  cases x with
  | fin q =>
    simp only [iscloseElem, decide_eq_true_eq]
    rw [qsub_eq, sub_self, qadd_eq, qmul_eq, qabs_eq, qabs_eq, abs_zero]
    have h1 : (0:ℚ) < atolQ := by rw [atolQ_eq]; norm_num
    have h2 : (0:ℚ) ≤ rtolQ := by rw [rtolQ_eq]; norm_num
    have h3 : (0:ℚ) ≤ |q| := abs_nonneg q
    nlinarith
  | inf => rfl
  | ninf => rfl
  | nan => exact absurd h (by simp [PyFloat.notNaN])

theorem zip_self_all_isclose (xs : List PyFloat) (h : xs.all PyFloat.notNaN = true) :
    ((xs.zip xs).all fun p => iscloseElem p.1 p.2) = true := by
  induction xs with
  | nil => rfl
  | cons x t ih =>
    simp only [List.all_cons, Bool.and_eq_true] at h
    simp only [List.zip_cons_cons, List.all_cons, Bool.and_eq_true]
    exact ⟨iscloseElem_self x h.1, ih h.2⟩

theorem allcloseP_self (p : PredVal) (h : p.noNaN = true) :
    allcloseP p p = .ok true := by
  cases p with
  | s f =>
    simp only [allcloseP, PredVal.toListP, allcloseL, List.all_cons, List.all_nil,
      Bool.and_true]
    rw [iscloseElem_self f h]
  | l xs =>
    cases xs with
    | nil => rfl
    | cons x t =>
      cases t with
      | nil =>
        simp only [PredVal.noNaN, List.all_cons, List.all_nil, Bool.and_true] at h
        simp only [allcloseP, PredVal.toListP, allcloseL, List.all_cons, List.all_nil,
          Bool.and_true]
        rw [iscloseElem_self x h]
      | cons y t2 =>
        simp only [PredVal.noNaN] at h
        have hz := zip_self_all_isclose (x :: y :: t2) h
        show (if (x :: y :: t2).length = (x :: y :: t2).length then
            Except.ok (((x :: y :: t2).zip (x :: y :: t2)).all fun p => iscloseElem p.1 p.2)
          else Except.error PyErr.valueError) = Except.ok true
        rw [if_pos rfl, hz]

theorem sanitize_ok_allFinite (a : NDArr) (pred : PredIn) (a2 : NDArr) (p2 : PredIn)
    (h : sanitize a pred = .ok (a2, p2)) : a2.allFinite = true := by
  unfold sanitize at h
  by_cases hf : a.allFinite
  · rw [if_pos hf] at h
    cases h
    exact hf
  · rw [if_neg hf] at h
    have hsent : ∀ b : Bool, (sentinel b).1.allFinite = true := by
      intro b
      cases b <;> rfl
    cases pred with
    | list l =>
      injection h with h2
      cases h2
      exact allFinite_replicate_zero l.length
    | none =>
      injection h with h2
      have h3 : a2 = (sentinel false).1 := by rw [h2]
      rw [h3]
      exact hsent false
    | flt f =>
      injection h with h2
      have h3 : a2 = (sentinel f.gtZero).1 := by rw [h2]
      rw [h3]
      exact hsent f.gtZero
    | other f =>
      injection h with h2
      have h3 : a2 = (sentinel f.gtZero).1 := by rw [h2]
      rw [h3]
      exact hsent f.gtZero
    | intv n =>
      injection h with h2
      have h3 : a2 = (sentinel (decide (0 < n))).1 := by rw [h2]
      rw [h3]
      exact hsent (decide (0 < n))
    | arr v =>
      match v, h with
      | [x], h =>
        injection h with h2
        have h3 : a2 = (sentinel x.gtZero).1 := by rw [h2]
        rw [h3]
        exact hsent x.gtZero
      | [], h =>
        injection h with h2
        have h3 : a2 = (sentinel false).1 := by rw [h2]
        rw [h3]
        exact hsent false
      | x :: y :: t, h => cases h

theorem new_ok_prediction_some (i : Option (List (List PyFloat))) (l : Option PyLabel)
    (p : PredIn) (pr : Option Nat) (t : Option Nat) (v : PredictionVector) (w : Bool)
    (h : PredictionVector.new i l p pr t = .ok (v, w)) :
    ∃ pv, v.prediction = Option.some pv := by
  rw [PredictionVector.new] at h
  cases hd : deriveInput i p with
  | error e => rw [hd] at h; cases h
  | ok s1 =>
    rw [hd] at h
    obtain ⟨a, pred, warned⟩ := s1
    dsimp only at h
    cases hs : sanitize a pred with
    | error e => rw [hs] at h; cases h
    | ok s2 =>
      rw [hs] at h
      obtain ⟨a2, pred2⟩ := s2
      dsimp only at h
      cases ha : attachPrediction a2 pred2 with
      | error e => rw [ha] at h; cases h
      | ok pv =>
        rw [ha] at h
        dsimp only at h
        cases h
        exact ⟨pv, rfl⟩

/-! Claim theorems. -/

/-- Claim C1: construction preserves the payload — for every finite float
scalar p, constructing with prediction=p and no input_array yields numeric
storage [[p]] and a .prediction attribute numerically equal to p; for every
finite list of floats P, constructing with prediction=P yields a single-row
numeric storage matching P elementwise and .prediction == P. -/
theorem c1_construction_preserves_payload (lab : Option PyLabel) (pr : Option Nat)
    (q : ℚ) (P : List ℚ) :
    (PredictionVector.new Option.none lab (.flt (.fin q)) pr Option.none =
      .ok (⟨.two [[.fin q]], lab, pr, Option.some (.s (.fin q)), Option.none⟩, false)) ∧
    (PredictionVector.new Option.none lab (.list (P.map .fin)) pr Option.none =
      .ok (⟨.two [P.map .fin], lab, pr, Option.some (.l (P.map .fin)), Option.none⟩,
        false)) := by
  constructor
  · rfl
  · simp [PredictionVector.new, deriveInput, sanitize, attachPrediction, BaseDataNew,
      NDArr.allFinite, allFinite_map_fin]

/-- Claim C2: non-finite sanitization at construction — a list prediction with
a non-finite entry yields all-zero storage of the same length; a single-value
non-finite prediction is replaced by the sentinel ±1e9 whose sign follows the
original value (`prediction > 0`), with NaN falling to the −1e9 branch;
inf yields [[1e9]] and −inf yields [[−1e9]]. -/
theorem c2_nonfinite_sanitization (l : List PyFloat) (f : PyFloat)
    (hl : l.all PyFloat.isFinite = false) (hf : f.isFinite = false) :
    (PredictionVector.new Option.none Option.none (.list l) Option.none Option.none =
      .ok (⟨.one (List.replicate l.length (.fin 0)), Option.none, Option.none,
        Option.some (.l l), Option.none⟩, false)) ∧
    (PredictionVector.new Option.none Option.none (.flt f) Option.none Option.none =
      .ok (⟨.two [[.fin (if f.gtZero then 10 ^ 9 else -(10 ^ 9))]], Option.none,
        Option.none, Option.some (.s (.fin (if f.gtZero then 10 ^ 9 else -(10 ^ 9)))),
        Option.none⟩, false)) ∧
    (PredictionVector.new Option.none Option.none (.flt .inf) Option.none Option.none =
      .ok (⟨.two [[.fin (10 ^ 9)]], Option.none, Option.none,
        Option.some (.s (.fin (10 ^ 9))), Option.none⟩, false)) ∧
    (PredictionVector.new Option.none Option.none (.flt .ninf) Option.none Option.none =
      .ok (⟨.two [[.fin (-(10 ^ 9))]], Option.none, Option.none,
        Option.some (.s (.fin (-(10 ^ 9)))), Option.none⟩, false)) ∧
    (PredictionVector.new Option.none Option.none (.flt .nan) Option.none Option.none =
      .ok (⟨.two [[.fin (-(10 ^ 9))]], Option.none, Option.none,
        Option.some (.s (.fin (-(10 ^ 9)))), Option.none⟩, false)) := by
  refine ⟨?_, ?_, rfl, rfl, rfl⟩
  · simp [PredictionVector.new, deriveInput, sanitize, attachPrediction, BaseDataNew,
      NDArr.allFinite, hl]
  · cases hgt : f.gtZero <;>
      simp [PredictionVector.new, deriveInput, sanitize, attachPrediction, BaseDataNew,
        NDArr.allFinite, hf, hgt, sentinel] <;> norm_num

/-- Witness for C2 at the concrete inputs l = [nan, 1.0] and f = nan. -/
theorem c2_nonfinite_sanitization_witness :
    (PredictionVector.new Option.none Option.none (.list [.nan, .fin 1]) Option.none
        Option.none =
      .ok (⟨.one [.fin 0, .fin 0], Option.none, Option.none,
        Option.some (.l [.nan, .fin 1]), Option.none⟩, false)) ∧
    (PredictionVector.new Option.none Option.none (.flt .nan) Option.none Option.none =
      .ok (⟨.two [[.fin (-(10 ^ 9))]], Option.none, Option.none,
        Option.some (.s (.fin (-(10 ^ 9)))), Option.none⟩, false)) ∧
    (PredictionVector.new Option.none Option.none (.flt .inf) Option.none Option.none =
      .ok (⟨.two [[.fin (10 ^ 9)]], Option.none, Option.none,
        Option.some (.s (.fin (10 ^ 9))), Option.none⟩, false)) ∧
    (PredictionVector.new Option.none Option.none (.flt .ninf) Option.none Option.none =
      .ok (⟨.two [[.fin (-(10 ^ 9))]], Option.none, Option.none,
        Option.some (.s (.fin (-(10 ^ 9)))), Option.none⟩, false)) ∧
    (PredictionVector.new Option.none Option.none (.flt .nan) Option.none Option.none =
      .ok (⟨.two [[.fin (-(10 ^ 9))]], Option.none, Option.none,
        Option.some (.s (.fin (-(10 ^ 9)))), Option.none⟩, false)) :=
  c2_nonfinite_sanitization [.nan, .fin 1] .nan rfl rfl

/-- Claim C3 counterexample: the equality contract is not reflexive — an
instance built from prediction=[nan, 1.0] keeps the NaN in .prediction and
compares unequal to itself — and not symmetric: with equal labels,
prediction 0.0 (self) vs 1.000005e-8 (other) compares equal, but swapping
the operands compares unequal, because allclose scales its tolerance with
the right operand only. -/
theorem c3_equality_counterexample :
    ((PredictionVector.new Option.none (Option.some (.str "a")) (.list [.nan, .fin 1])
        Option.none Option.none).bind (fun p => p.1.eq (.pv p.1)) = .ok false) ∧
    ((PredictionVector.new Option.none (Option.some (.str "a")) (.flt (.fin 0))
        Option.none Option.none).bind (fun p =>
      (PredictionVector.new Option.none (Option.some (.str "a"))
          (.flt (.fin (mkRat 1000005 100000000000000))) Option.none Option.none).bind
        (fun q => p.1.eq (.pv q.1))) = .ok true) ∧
    ((PredictionVector.new Option.none (Option.some (.str "a")) (.flt (.fin 0))
        Option.none Option.none).bind (fun p =>
      (PredictionVector.new Option.none (Option.some (.str "a"))
          (.flt (.fin (mkRat 1000005 100000000000000))) Option.none Option.none).bind
        (fun q => q.1.eq (.pv p.1))) = .ok false) :=
  ⟨rfl, rfl, rfl⟩

/-- Claim C3 (amended): two PredictionVector instances compare equal exactly
when their labels are equal by value and their predictions are allclose
under the tolerance comparison; a value of a different concrete type is
never equal (the comparison returns false, not an error); numeric storage
and predictor play no role; equality is reflexive for instances whose
prediction is present and NaN-free (it fails to be reflexive on NaN and
fails to be symmetric in a narrow band because the relative tolerance
scales with the right operand). -/
theorem c3_equality_contract (v w : PredictionVector) (x : Nat) (p : PredVal)
    (hp : v.prediction = Option.some p) (hnan : p.noNaN = true) :
    (v.eq (.foreign x) = .ok false) ∧
    (v.eq (.pv w) = .ok true ↔
      v.label = w.label ∧ allcloseOpt v.prediction w.prediction = .ok true) ∧
    (v.eq (.pv v) = .ok true) := by
  refine ⟨rfl, ?_, ?_⟩
  · rw [PredictionVector.eq]
    by_cases hl : v.label = w.label
    · rw [if_pos hl]
      exact ⟨fun h => ⟨hl, h⟩, fun h => h.2⟩
    · rw [if_neg hl]
      constructor
      · intro h
        injection h with h2
        exact absurd h2 (by simp)
      · intro h
        exact absurd h.1 hl
  · rw [PredictionVector.eq, if_pos rfl, hp]
    exact allcloseP_self p hnan

/-- Witness for C3 (amended) at a concrete instance with label "a" and
prediction 1.0, compared against itself and against foreign value 0. -/
theorem c3_equality_contract_witness :
    (PredictionVector.eq ⟨.two [[.fin 1]], Option.some (.str "a"), Option.none,
        Option.some (.s (.fin 1)), Option.none⟩ (.foreign 0) = .ok false) ∧
    (PredictionVector.eq ⟨.two [[.fin 1]], Option.some (.str "a"), Option.none,
        Option.some (.s (.fin 1)), Option.none⟩
      (.pv ⟨.two [[.fin 1]], Option.some (.str "a"), Option.none,
        Option.some (.s (.fin 1)), Option.none⟩) = .ok true ↔
      (Option.some (PyLabel.str "a") : Option PyLabel) = Option.some (PyLabel.str "a") ∧
      allcloseOpt (Option.some (.s (.fin 1))) (Option.some (.s (.fin 1))) = .ok true) ∧
    (PredictionVector.eq ⟨.two [[.fin 1]], Option.some (.str "a"), Option.none,
        Option.some (.s (.fin 1)), Option.none⟩
      (.pv ⟨.two [[.fin 1]], Option.some (.str "a"), Option.none,
        Option.some (.s (.fin 1)), Option.none⟩) = .ok true) :=
  c3_equality_contract
    ⟨.two [[.fin 1]], Option.some (.str "a"), Option.none,
      Option.some (.s (.fin 1)), Option.none⟩
    ⟨.two [[.fin 1]], Option.some (.str "a"), Option.none,
      Option.some (.s (.fin 1)), Option.none⟩
    0 (.s (.fin 1)) rfl rfl

/-- Claim C4 counterexample: round-trip through __reduce__/__setstate__ of
the instance built from prediction=[nan, 1.0] restores every attribute
exactly, yet the restored instance is not equal to the original under the
§4.3 equality, because allclose(nan, nan) is false. -/
theorem c4_roundtrip_counterexample :
    (PredictionVector.new Option.none (Option.some (.str "a")) (.list [.nan, .fin 1])
        Option.none Option.none).bind (fun p =>
      p.1.eq (.pv (pvRoundTrip p.1))) = .ok false :=
  rfl

/-- Claim C4 (amended): for every constructed PredictionVector, serializing
via __reduce__ and deserializing via __setstate__ restores the numeric
storage exactly and .label, .predictor (the very same reference) and
.prediction exactly; the restored instance is equal (§4.3) to the original
whenever the prediction is NaN-free (equality fails when a sanitized
sequence prediction retains NaN). -/
theorem c4_roundtrip_preserves (i : Option (List (List PyFloat))) (l : Option PyLabel)
    (p : PredIn) (pr t : Option Nat) (v : PredictionVector) (w : Bool)
    (h : PredictionVector.new i l p pr t = .ok (v, w))
    (hn : optNoNaN v.prediction = true) :
    ((pvRoundTrip v).storage = v.storage ∧ (pvRoundTrip v).label = v.label ∧
      (pvRoundTrip v).predictor = v.predictor ∧
      (pvRoundTrip v).prediction = v.prediction) ∧
    v.eq (.pv (pvRoundTrip v)) = .ok true := by
  refine ⟨⟨rfl, rfl, rfl, rfl⟩, ?_⟩
  obtain ⟨pv, hpv⟩ := new_ok_prediction_some i l p pr t v w h
  rw [PredictionVector.eq,
    if_pos (show v.label = (pvRoundTrip v).label from rfl)]
  show allcloseOpt v.prediction v.prediction = .ok true
  rw [hpv]
  rw [hpv] at hn
  exact allcloseP_self pv hn

/-- Witness for C4 (amended) at the instance constructed from label "a",
prediction 1.0. -/
theorem c4_roundtrip_preserves_witness :
    ((pvRoundTrip ⟨.two [[.fin 1]], Option.some (.str "a"), Option.none,
        Option.some (.s (.fin 1)), Option.none⟩).storage =
      NDArr.two [[.fin 1]] ∧
      (pvRoundTrip ⟨.two [[.fin 1]], Option.some (.str "a"), Option.none,
        Option.some (.s (.fin 1)), Option.none⟩).label =
        Option.some (PyLabel.str "a") ∧
      (pvRoundTrip ⟨.two [[.fin 1]], Option.some (.str "a"), Option.none,
        Option.some (.s (.fin 1)), Option.none⟩).predictor = Option.none ∧
      (pvRoundTrip ⟨.two [[.fin 1]], Option.some (.str "a"), Option.none,
        Option.some (.s (.fin 1)), Option.none⟩).prediction =
        Option.some (PredVal.s (.fin 1))) ∧
    PredictionVector.eq
      ⟨.two [[.fin 1]], Option.some (.str "a"), Option.none,
        Option.some (.s (.fin 1)), Option.none⟩
      (.pv (pvRoundTrip ⟨.two [[.fin 1]], Option.some (.str "a"), Option.none,
        Option.some (.s (.fin 1)), Option.none⟩)) = .ok true :=
  c4_roundtrip_preserves Option.none (Option.some (.str "a")) (.flt (.fin 1))
    Option.none Option.none
    ⟨.two [[.fin 1]], Option.some (.str "a"), Option.none,
      Option.some (.s (.fin 1)), Option.none⟩
    false rfl rfl

/-- Claim C5: derived-instance attribute propagation — when a new instance is
derived from the numeric storage of an existing object (the __array_finalize__
hook, fired e.g. by a column slice), a PredictionVector source passes
.label, .predictor and .prediction on by reference, while a bare ndarray or
absent source leaves all three attributes None. -/
theorem c5_finalize_propagation (st a : NDArr) (v : PredictionVector) (i j : Nat) :
    ((PredictionVector.arrayFinalize st (.pv v)).label = v.label ∧
      (PredictionVector.arrayFinalize st (.pv v)).predictor = v.predictor ∧
      (PredictionVector.arrayFinalize st (.pv v)).prediction = v.prediction) ∧
    (PredictionVector.arrayFinalize st (.bare a) =
      ⟨st, Option.none, Option.none, Option.none, Option.none⟩) ∧
    (PredictionVector.arrayFinalize st .absent =
      ⟨st, Option.none, Option.none, Option.none, Option.none⟩) ∧
    ((pvSliceCols v i j).label = v.label ∧
      (pvSliceCols v i j).predictor = v.predictor ∧
      (pvSliceCols v i j).prediction = v.prediction) :=
  ⟨⟨rfl, rfl, rfl⟩, rfl, rfl, ⟨rfl, rfl, rfl⟩⟩

/-- Claim C6: constructing with neither a prediction value nor an input_array
raises a TypeError; no partial object is returned. -/
theorem c6_missing_input_raises (lab : Option PyLabel) (pr t : Option Nat) :
    PredictionVector.new Option.none lab .none pr t = .error .typeError :=
  rfl

/-- Claim C7 counterexample: construction from prediction=[nan, 1.0] stores
the original NaN in the .prediction attribute (nan is not finite) and its
numeric storage is the flat 1-dimensional array [0, 0], not of shape (1, k);
moreover prediction=[] yields storage of shape (1, 0), so k ≥ 1 also fails. -/
theorem c7_storage_invariant_counterexample :
    ((PredictionVector.new Option.none Option.none (.list [.nan, .fin 1]) Option.none
        Option.none).map (fun p => (p.1.prediction, p.1.storage)) =
      .ok (Option.some (.l [.nan, .fin 1]), .one [.fin 0, .fin 0])) ∧
    (PyFloat.nan.isFinite = false) ∧
    ((PredictionVector.new Option.none Option.none (.list []) Option.none
        Option.none).map (fun p => p.1.storage) = .ok (.two [[]])) :=
  ⟨rfl, rfl, rfl⟩

/-- Claim C7 (amended): every successfully constructed PredictionVector has
all-finite numeric storage; the further shape-(1,k), k ≥ 1 and
finite-.prediction guarantees do not hold in general — the
sequence-sanitization branch produces a flat all-zero array and keeps the
original non-finite list in .prediction, and an empty-list prediction
yields an empty row. -/
theorem c7_storage_all_finite (i : Option (List (List PyFloat))) (l : Option PyLabel)
    (p : PredIn) (pr t : Option Nat) (v : PredictionVector) (w : Bool)
    (h : PredictionVector.new i l p pr t = .ok (v, w)) :
    v.storage.allFinite = true := by
  rw [PredictionVector.new] at h
  cases hd : deriveInput i p with
  | error e => rw [hd] at h; cases h
  | ok s1 =>
    rw [hd] at h
    obtain ⟨a, pred, warned⟩ := s1
    dsimp only at h
    cases hs : sanitize a pred with
    | error e => rw [hs] at h; cases h
    | ok s2 =>
      rw [hs] at h
      obtain ⟨a2, pred2⟩ := s2
      dsimp only at h
      cases ha : attachPrediction a2 pred2 with
      | error e => rw [ha] at h; cases h
      | ok pv =>
        rw [ha] at h
        dsimp only at h
        cases h
        exact sanitize_ok_allFinite a pred a2 pred2 hs

/-- Witness for C7 (amended) at the instance constructed from the non-finite
scalar prediction nan, whose storage is the sentinel [[-1e9]]. -/
theorem c7_storage_all_finite_witness :
    NDArr.allFinite (.two [[.fin (-(10 ^ 9))]]) = true :=
  c7_storage_all_finite Option.none Option.none (.flt .nan) Option.none Option.none
    ⟨.two [[.fin (-(10 ^ 9))]], Option.none, Option.none,
      Option.some (.s (.fin (-(10 ^ 9)))), Option.none⟩
    false (by rfl)

/-- Claim C8: a scalar prediction of an unexpected numeric type emits the
type-mismatch warning, is coerced via the generic float conversion, is
stored as a 1×1 row, and construction succeeds — also when the coerced
value is non-finite, in which case the usual sentinel replaces it; the
mismatch is never fatal. -/
theorem c8_type_mismatch_recovered (lab : Option PyLabel) (pr : Option Nat) (q : ℚ)
    (f : PyFloat) (hf : f.isFinite = false) :
    (PredictionVector.new Option.none lab (.other (.fin q)) pr Option.none =
      .ok (⟨.two [[.fin q]], lab, pr, Option.some (.s (.fin q)), Option.none⟩, true)) ∧
    (PredictionVector.new Option.none lab (.other f) pr Option.none =
      .ok (⟨.two [[.fin (if f.gtZero then 10 ^ 9 else -(10 ^ 9))]], lab, pr,
        Option.some (.s (.fin (if f.gtZero then 10 ^ 9 else -(10 ^ 9)))),
        Option.none⟩, true)) := by
  constructor
  · rfl
  · cases hgt : f.gtZero <;>
      simp [PredictionVector.new, deriveInput, sanitize, attachPrediction, BaseDataNew,
        NDArr.allFinite, hf, hgt, sentinel] <;> norm_num

/-- Witness for C8 at the concrete inputs q = 2 and f = nan. -/
theorem c8_type_mismatch_recovered_witness :
    (PredictionVector.new Option.none Option.none (.other (.fin 2)) Option.none
        Option.none =
      .ok (⟨.two [[.fin 2]], Option.none, Option.none, Option.some (.s (.fin 2)),
        Option.none⟩, true)) ∧
    (PredictionVector.new Option.none Option.none (.other .nan) Option.none
        Option.none =
      .ok (⟨.two [[.fin (-(10 ^ 9))]], Option.none, Option.none,
        Option.some (.s (.fin (-(10 ^ 9)))), Option.none⟩, true)) :=
  c8_type_mismatch_recovered Option.none Option.none 2 .nan rfl

/-- Claim C9 counterexample: the scalar format string is "%s : %.4f \t",
which puts a space between the number and the tab — the instance with
label="ill" and prediction=0.5 formats to "ill : 0.5000 \t", which differs
from the claimed "ill : 0.5000\t". -/
theorem c9_format_counterexample :
    ((PredictionVector.new Option.none (Option.some (.str "ill"))
        (.flt (.fin (mkRat 1 2))) Option.none Option.none).bind
      (fun p => p.1.str) = .ok "ill : 0.5000 \t") ∧
    ("ill : 0.5000 \t" ≠ "ill : 0.5000\t") :=
  ⟨rfl, by decide⟩

/-- Claim C9 (amended): for a scalar label (or an absent one, rendered
"None") and a scalar prediction, __str__ renders
"<label> : <prediction to 4 decimal places> \t" — with a space before the
trailing tab; label="ill", prediction=0.5 gives exactly "ill : 0.5000 \t";
for a sequence label, each zipped (label, prediction) pair is rendered the
same way. -/
theorem c9_format_amended (lab : String) (q : ℚ) (ls : List String)
    (ps : List PyFloat) (st st2 st3 : NDArr) (pr pr2 pr3 : Option Nat)
    (tg tg2 tg3 : Option Nat) :
    (PredictionVector.str ⟨st, Option.some (.str lab), pr,
        Option.some (.s (.fin q)), tg⟩ =
      .ok (lab ++ " : " ++ fmt4 (.fin q) ++ " \t")) ∧
    (PredictionVector.str ⟨st3, Option.none, pr3, Option.some (.s (.fin q)), tg3⟩ =
      .ok ("None" ++ " : " ++ fmt4 (.fin q) ++ " \t")) ∧
    (PredictionVector.str ⟨st2, Option.some (.lst ls), pr2,
        Option.some (.l ps), tg2⟩ =
      .ok (String.join ((ls.zip ps).map fun a => a.1 ++ " : " ++ fmt4 a.2 ++ " \t"))) ∧
    (fmt4 (.fin (mkRat 1 2)) = "0.5000") :=
  ⟨rfl, rfl, rfl, rfl⟩

/-- Claim C10: equality is not total — two instances with equal labels whose
predictions are lists of lengths 2 and 3 make the tolerance comparison
raise a broadcast ValueError instead of returning a boolean. -/
theorem c10_eq_raises_on_length_mismatch :
    (PredictionVector.new Option.none (Option.some (.str "a")) (.list [.fin 1, .fin 2])
        Option.none Option.none).bind (fun p =>
      (PredictionVector.new Option.none (Option.some (.str "a"))
          (.list [.fin 1, .fin 2, .fin 3]) Option.none Option.none).bind (fun q =>
        p.1.eq (.pv q.1))) = .error .valueError :=
  rfl
